import Mathlib

/-!
# Verification of the admin_system record keeper

Shallow embedding of `src/admin_system.py`: entity models (`User`,
`Department`, `Employee`, `Task`), the in-memory collections of
`AdminSystem` (Python `dict`s modelled as insertion-ordered association
lists), and the operations layer (`login`, `create_user`,
`create_department`, `add_employee`, `list_employees`, `create_task`,
`update_task_status`).  Each interactive operation is embedded as a pure
function taking its prompted inputs as explicit arguments and the current
time as a `Nat` parameter; each early-return error print is mapped to the
corresponding error kind of the specification's error catalogue.
-/

namespace Admin

/-- Error/success kinds of the operations layer, following the spec's
error catalogue: each early `print`-and-`return` in the source is mapped
to its kind. -/
inductive Outcome where
  | ok
  | permissionDenied
  | duplicateIdError
  | notFoundError
  | validationError
  | authError
  deriving Repr, DecidableEq

/-! ## Python `dict` model

Python dictionaries keyed by strings are modelled as insertion-ordered
association lists: assignment to a fresh key appends, assignment to an
existing key overwrites in place, exactly as CPython dicts behave. -/

/-- `m.get(k)` / `m[k]` lookup. -/
def lookupA {α : Type} (m : List (String × α)) (k : String) : Option α :=
  match m with
  | [] => none
  | (k', v) :: rest => if k' = k then some v else lookupA rest k

/-- `k in m` membership test. -/
def memA {α : Type} (m : List (String × α)) (k : String) : Bool :=
  (lookupA m k).isSome

/-- `m[k] = v` assignment: overwrite in place, else append. -/
def setA {α : Type} (m : List (String × α)) (k : String) (v : α) :
    List (String × α) :=
  match m with
  | [] => [(k, v)]
  | (k', v') :: rest =>
    if k' = k then (k, v) :: rest else (k', v') :: setA rest k v

/-- In-place mutation of the entity stored at `k` (Python mutates the
object held in the dict). -/
def updateA {α : Type} (m : List (String × α)) (k : String) (f : α → α) :
    List (String × α) :=
  m.map (fun p => if p.1 = k then (p.1, f p.2) else p)

/-! ## Entity models -/

/-- `User.hash_password`.  Modelled from the spec: the password credential
is stored one-way hashed ("password never stored in recoverable form"); the
source delegates to the `hashlib` library's sha256 hex digest, which is not
part of this repository, so the digest is modelled as an injective tagging
encoding of the password. -/
def hash_password (password : String) : String :=
  "sha256:" ++ password

structure User where
  username : String
  password_hash : String
  role : String
  full_name : String
  email : String
  last_login : Option Nat
  is_active : Bool
  deriving Repr, DecidableEq

/-- `User.__init__`: `last_login = None`, `is_active = True`. -/
def User.init (username password_hash role full_name email : String) : User :=
  { username := username, password_hash := password_hash, role := role,
    full_name := full_name, email := email,
    last_login := none, is_active := true }

/-- `User.verify_password`. -/
def User.verify_password (u : User) (password : String) : Bool :=
  u.password_hash = hash_password password

structure Department where
  dept_id : String
  name : String
  manager : String
  description : String
  employees : List String
  budget : Int
  created_at : Nat
  deriving Repr, DecidableEq

/-- `Department.__init__` (with `created_at = datetime.now()` taken as the
explicit `now` argument). -/
def Department.init (dept_id name manager description : String) (now : Nat) :
    Department :=
  { dept_id := dept_id, name := name, manager := manager,
    description := description, employees := [], budget := 0,
    created_at := now }

/-- `Department.add_employee`: append if absent; returns the source's
success flag together with the updated department. -/
def Department.add_employee (d : Department) (employee_id : String) :
    Department × Bool :=
  if employee_id ∈ d.employees then (d, false)
  else ({ d with employees := d.employees ++ [employee_id] }, true)

structure Employee where
  emp_id : String
  full_name : String
  position : String
  department : String
  hire_date : String
  salary : Int
  email : String
  phone : String
  is_active : Bool
  emergency_contact : Option String
  notes : String
  deriving Repr, DecidableEq

/-- `Employee.__init__`: `is_active = True`, `emergency_contact = None`,
`notes = ""`. -/
def Employee.init (emp_id full_name position department hire_date : String)
    (salary : Int) (email phone : String) : Employee :=
  { emp_id := emp_id, full_name := full_name, position := position,
    department := department, hire_date := hire_date, salary := salary,
    email := email, phone := phone, is_active := true,
    emergency_contact := none, notes := "" }

/-- A task comment: `{'text': ..., 'author': ..., 'timestamp': ...}`. -/
structure Comment where
  text : String
  author : String
  timestamp : Nat
  deriving Repr, DecidableEq

structure Task where
  task_id : String
  title : String
  description : String
  assigned_to : String
  assigned_by : String
  due_date : String
  priority : String
  status : String
  created_at : Nat
  completed_at : Option Nat
  comments : List Comment
  deriving Repr, DecidableEq

/-- `Task.__init__`: status starts `"pending"`, no completion timestamp,
no comments. -/
def Task.init (task_id title description assigned_to assigned_by
    due_date priority : String) (now : Nat) : Task :=
  { task_id := task_id, title := title, description := description,
    assigned_to := assigned_to, assigned_by := assigned_by,
    due_date := due_date, priority := priority, status := "pending",
    created_at := now, completed_at := none, comments := [] }

/-- `Task.add_comment`. -/
def Task.add_comment (t : Task) (comment author : String) (now : Nat) :
    Task :=
  { t with comments :=
      t.comments ++ [{ text := comment, author := author, timestamp := now }] }

/-- `Task.update_status`: valid target statuses mutate the status, and a
transition to `"completed"` stamps `completed_at`; anything else leaves the
task untouched. -/
def Task.update_status (t : Task) (new_status : String) (now : Nat) : Task :=
  if new_status ∈ ["pending", "in_progress", "completed", "cancelled"] then
    let t' := { t with status := new_status }
    if new_status = "completed" then { t' with completed_at := some now }
    else t'
  else t

/-- Python `str.lower()`.  Modelled from the spec: the source lowercases
operator-supplied keyword strings (role, priority, status) before
validating them; `str.lower` is library code, modelled as character-wise
ASCII case folding. -/
def pyLower (s : String) : String :=
  String.mk (s.data.map Char.toLower)

/-- Splitting a character list on `'-'` separators (kernel-reducible
replacement for `String.splitOn "-"`). -/
def splitDash : List Char → List Char → List (List Char)
  | [], acc => [acc.reverse]
  | c :: rest, acc =>
    if c = '-' then acc.reverse :: splitDash rest []
    else splitDash rest (c :: acc)

/-- Decimal value of a digit list. -/
def digitsToNat (cs : List Char) : Nat :=
  cs.foldl (fun n c => n * 10 + (c.toNat - 48)) 0

/-- `datetime.strptime(s, "%Y-%m-%d")` validity.  Modelled from the spec:
dates are calendar dates in the fixed textual form of a 4-digit year,
2-digit month and 2-digit day; the parsing itself is `datetime` library
code absent from this repository, so it is modelled as the syntactic shape
check with month and day ranges. -/
def valid_date (s : String) : Bool :=
  match splitDash s.data [] with
  | [y, m, d] =>
    y.length = 4 && m.length = 2 && d.length = 2 &&
    y.all Char.isDigit && m.all Char.isDigit && d.all Char.isDigit &&
    decide (1 ≤ digitsToNat m) && decide (digitsToNat m ≤ 12) &&
    decide (1 ≤ digitsToNat d) && decide (digitsToNat d ≤ 31)
  | _ => false

/-! ## The system state and the operations layer

`AdminSystem` holds the current session and the four keyed collections
plus the activity log.  File persistence (`_save_data`) rewrites the
durable copy of the in-memory collection and has no effect on the
in-memory state, so in this embedding it is the identity; `_log_activity`
is kept faithfully. -/

structure LogEntry where
  timestamp : Nat
  user : String
  action : String
  details : String
  deriving Repr, DecidableEq

structure AdminSystem where
  current_user : Option User
  users : List (String × User)
  departments : List (String × Department)
  employees : List (String × Employee)
  tasks : List (String × Task)
  logs : List LogEntry
  deriving Repr, DecidableEq

/-- `AdminSystem._log_activity`. -/
def log_activity (sys : AdminSystem) (action details : String) (now : Nat) :
    AdminSystem :=
  { sys with logs := sys.logs ++
      [{ timestamp := now,
         user := (match sys.current_user with
                  | some u => u.username
                  | none => "system"),
         action := action, details := details }] }

/-- `AdminSystem.login`, with the prompted username and password as
explicit arguments.  On success the logged-in user object (shared between
`current_user` and the users dict) gets a fresh `last_login`. -/
def login (sys : AdminSystem) (username password : String) (now : Nat) :
    Outcome × AdminSystem :=
  match lookupA sys.users username with
  | some user =>
    if user.verify_password password && user.is_active then
      let user' := { user with last_login := some now }
      let sys' := { sys with
        current_user := some user'
        users := setA sys.users username user' }
      (Outcome.ok, log_activity sys' "login"
        ("User " ++ username ++ " logged in") now)
    else (Outcome.authError, sys)
  | none => (Outcome.authError, sys)

/-- `AdminSystem.create_user`, with the prompted inputs as explicit
arguments (`role_input` is lowercased by the source before validation). -/
def create_user (sys : AdminSystem)
    (username password confirm role_input full_name email : String)
    (now : Nat) : Outcome × AdminSystem :=
  match sys.current_user with
  | none => (Outcome.permissionDenied, sys)
  | some cu =>
    if cu.role ≠ "admin" then (Outcome.permissionDenied, sys)
    else if memA sys.users username then (Outcome.duplicateIdError, sys)
    else if password ≠ confirm then (Outcome.validationError, sys)
    else
      let role := pyLower role_input
      if role ∉ ["admin", "manager", "staff"] then
        (Outcome.validationError, sys)
      else
        let new_user := User.init username (hash_password password) role
          full_name email
        let sys' := { sys with users := setA sys.users username new_user }
        (Outcome.ok, log_activity sys' "user_create"
          ("Created user " ++ username ++ " with role " ++ role) now)

/-- `AdminSystem.create_department`. -/
def create_department (sys : AdminSystem)
    (dept_id name manager description : String) (budget : Int) (now : Nat) :
    Outcome × AdminSystem :=
  match sys.current_user with
  | none => (Outcome.permissionDenied, sys)
  | some cu =>
    if cu.role ≠ "admin" then (Outcome.permissionDenied, sys)
    else if memA sys.departments dept_id then (Outcome.duplicateIdError, sys)
    else
      match lookupA sys.users manager with
      | none => (Outcome.notFoundError, sys)
      | some mgr =>
        if mgr.role ≠ "manager" then (Outcome.notFoundError, sys)
        else
          let new_dept :=
            { Department.init dept_id name manager description now with
                budget := budget }
          let sys' :=
            { sys with departments := setA sys.departments dept_id new_dept }
          (Outcome.ok, log_activity sys' "dept_create"
            ("Created department " ++ dept_id) now)

/-- `AdminSystem.add_employee`.  On success the employee is inserted and
its id appended to the department's member list, and both collections are
persisted together. -/
def add_employee (sys : AdminSystem)
    (emp_id full_name position department hire_date : String)
    (salary : Int) (email phone : String) (now : Nat) :
    Outcome × AdminSystem :=
  match sys.current_user with
  | none => (Outcome.permissionDenied, sys)
  | some cu =>
    if cu.role ∉ ["admin", "manager"] then (Outcome.permissionDenied, sys)
    else if memA sys.employees emp_id then (Outcome.duplicateIdError, sys)
    else if ¬ memA sys.departments department then (Outcome.notFoundError, sys)
    else if ¬ valid_date hire_date then (Outcome.validationError, sys)
    else
      let new_emp := Employee.init emp_id full_name position department
        hire_date salary email phone
      let sys' := { sys with
        employees := setA sys.employees emp_id new_emp,
        departments := updateA sys.departments department
          (fun d => (d.add_employee emp_id).1) }
      (Outcome.ok, log_activity sys' "employee_add"
        ("Added employee " ++ emp_id) now)

/-- `AdminSystem.list_employees`: the source performs no permission check
here; it returns the listing (all employees, or the members of the given
department) and never mutates the system. -/
def list_employees (sys : AdminSystem) (department_id : Option String) :
    Outcome × List Employee :=
  match department_id with
  | some did =>
    match lookupA sys.departments did with
    | none => (Outcome.notFoundError, [])
    | some dept =>
      (Outcome.ok, dept.employees.filterMap (fun eid => lookupA sys.employees eid))
  | none => (Outcome.ok, sys.employees.map (fun p => p.2))

/-- `AdminSystem.create_task` (`priority_input` is lowercased; an
unrecognised priority silently falls back to `"medium"`). -/
def create_task (sys : AdminSystem)
    (task_id title description assigned_to due_date priority_input : String)
    (now : Nat) : Outcome × AdminSystem :=
  match sys.current_user with
  | none => (Outcome.permissionDenied, sys)
  | some cu =>
    if memA sys.tasks task_id then (Outcome.duplicateIdError, sys)
    else if ¬ memA sys.employees assigned_to then (Outcome.notFoundError, sys)
    else if ¬ valid_date due_date then (Outcome.validationError, sys)
    else
      let p := pyLower priority_input
      let priority := if p ∈ ["low", "medium", "high"] then p else "medium"
      let new_task := Task.init task_id title description assigned_to
        cu.username due_date priority now
      let sys' := { sys with tasks := setA sys.tasks task_id new_task }
      (Outcome.ok, log_activity sys' "task_create"
        ("Created task " ++ task_id ++ " assigned to " ++ assigned_to) now)

/-- `AdminSystem.update_task_status` (`new_status_input` is lowercased
before validation; an empty `comment` means the optional comment prompt
was skipped). -/
def update_task_status (sys : AdminSystem)
    (task_id new_status_input comment : String) (now : Nat) :
    Outcome × AdminSystem :=
  match sys.current_user with
  | none => (Outcome.permissionDenied, sys)
  | some cu =>
    match lookupA sys.tasks task_id with
    | none => (Outcome.notFoundError, sys)
    | some task =>
      let new_status := pyLower new_status_input
      if new_status ∉ ["pending", "in_progress", "completed", "cancelled"] then
        (Outcome.validationError, sys)
      else
        let t1 := task.update_status new_status now
        let t2 := if new_status = "completed" then
            { t1 with completed_at := some now } else t1
        let t3 := if comment ≠ "" then t2.add_comment comment cu.username now
          else t2
        let sys' := { sys with tasks := setA sys.tasks task_id t3 }
        (Outcome.ok, log_activity sys' "task_update"
          ("Updated task " ++ task_id ++ " to status " ++ new_status) now)

/-! ## Serialization (`to_dict` / `from_dict`) and the Record Store

The serialized record of each entity is modelled as a flat structure with
one field per key of the Python dict (`to_dict` always emits every key, so
the `data.get(..., default)` calls of `from_dict` always find the key in a
round trip).  `datetime.isoformat` / `datetime.fromisoformat` are library
code absent from this repository; modelled from the spec ("timestamps
include full date-time precision") as a lossless encoding of abstract time
values, here the identity pair. -/

def isoformat (t : Nat) : Nat := t

def fromisoformat (t : Nat) : Nat := t

structure UserDict where
  username : String
  password_hash : String
  role : String
  full_name : String
  email : String
  last_login : Option Nat
  is_active : Bool
  deriving Repr, DecidableEq

/-- `User.to_dict`. -/
def User.to_dict (u : User) : UserDict :=
  { username := u.username, password_hash := u.password_hash,
    role := u.role, full_name := u.full_name, email := u.email,
    last_login := u.last_login.map isoformat, is_active := u.is_active }

/-- `User.from_dict`. -/
def User.from_dict (d : UserDict) : User :=
  let u := User.init d.username d.password_hash d.role d.full_name d.email
  { u with last_login := d.last_login.map fromisoformat,
           is_active := d.is_active }

structure DepartmentDict where
  dept_id : String
  name : String
  manager : String
  description : String
  employees : List String
  budget : Int
  created_at : Nat
  deriving Repr, DecidableEq

/-- `Department.to_dict`. -/
def Department.to_dict (d : Department) : DepartmentDict :=
  { dept_id := d.dept_id, name := d.name, manager := d.manager,
    description := d.description, employees := d.employees,
    budget := d.budget, created_at := isoformat d.created_at }

/-- `Department.from_dict`. -/
def Department.from_dict (dd : DepartmentDict) : Department :=
  let d := Department.init dd.dept_id dd.name dd.manager dd.description
    (fromisoformat dd.created_at)
  { d with employees := dd.employees, budget := dd.budget }

structure EmployeeDict where
  emp_id : String
  full_name : String
  position : String
  department : String
  hire_date : String
  salary : Int
  email : String
  phone : String
  is_active : Bool
  emergency_contact : Option String
  notes : String
  deriving Repr, DecidableEq

/-- `Employee.to_dict`. -/
def Employee.to_dict (e : Employee) : EmployeeDict :=
  { emp_id := e.emp_id, full_name := e.full_name, position := e.position,
    department := e.department, hire_date := e.hire_date,
    salary := e.salary, email := e.email, phone := e.phone,
    is_active := e.is_active, emergency_contact := e.emergency_contact,
    notes := e.notes }

/-- `Employee.from_dict`. -/
def Employee.from_dict (d : EmployeeDict) : Employee :=
  let e := Employee.init d.emp_id d.full_name d.position d.department
    d.hire_date d.salary d.email d.phone
  { e with is_active := d.is_active,
           emergency_contact := d.emergency_contact, notes := d.notes }

structure TaskDict where
  task_id : String
  title : String
  description : String
  assigned_to : String
  assigned_by : String
  due_date : String
  priority : String
  status : String
  created_at : Nat
  completed_at : Option Nat
  comments : List Comment
  deriving Repr, DecidableEq

/-- `Task.to_dict` (comments are already plain records and are emitted
as-is). -/
def Task.to_dict (t : Task) : TaskDict :=
  { task_id := t.task_id, title := t.title, description := t.description,
    assigned_to := t.assigned_to, assigned_by := t.assigned_by,
    due_date := t.due_date, priority := t.priority, status := t.status,
    created_at := isoformat t.created_at,
    completed_at := t.completed_at.map isoformat, comments := t.comments }

/-- `Task.from_dict`. -/
def Task.from_dict (d : TaskDict) : Task :=
  let t := Task.init d.task_id d.title d.description d.assigned_to
    d.assigned_by d.due_date d.priority (fromisoformat d.created_at)
  { t with status := d.status,
           completed_at := d.completed_at.map fromisoformat,
           comments := d.comments }

/-- `AdminSystem._save_data` restricted to one collection: the persisted
form of a keyed collection is the list of its entities' dict records. -/
def save_users (m : List (String × User)) : List UserDict :=
  m.map (fun p => p.2.to_dict)

/-- `AdminSystem._load_data` for the users collection: each record is
rebuilt with `from_dict` and keyed by its `username` field. -/
def load_users (l : List UserDict) : List (String × User) :=
  l.map (fun d => (d.username, User.from_dict d))

def save_departments (m : List (String × Department)) : List DepartmentDict :=
  m.map (fun p => p.2.to_dict)

def load_departments (l : List DepartmentDict) : List (String × Department) :=
  l.map (fun d => (d.dept_id, Department.from_dict d))

def save_employees (m : List (String × Employee)) : List EmployeeDict :=
  m.map (fun p => p.2.to_dict)

def load_employees (l : List EmployeeDict) : List (String × Employee) :=
  l.map (fun d => (d.emp_id, Employee.from_dict d))

def save_tasks (m : List (String × Task)) : List TaskDict :=
  m.map (fun p => p.2.to_dict)

def load_tasks (l : List TaskDict) : List (String × Task) :=
  l.map (fun d => (d.task_id, Task.from_dict d))

/-! ## Concrete fixture states

A small world used to evaluate the operations on concrete inputs: three
users (one per role), one department, one employee, one task. -/

def adminUser : User :=
  User.init "alice" (hash_password "admin123") "admin" "Alice Admin"
    "alice@example.com"

def managerUser : User :=
  User.init "mia" (hash_password "secret1") "manager" "Mia Manager"
    "mia@example.com"

def staffUser : User :=
  User.init "sam" (hash_password "secret2") "staff" "Sam Staff"
    "sam@example.com"

def deptD1 : Department :=
  Department.init "D1" "Development" "mia" "builds things" 0

def empE1 : Employee :=
  Employee.init "E1" "Eve Engineer" "Engineer" "D1" "2024-02-02" 50000
    "eve@example.com" "555-0101"

def taskT1 : Task :=
  Task.init "T1" "Fix login" "Fix the login page" "E1" "mia" "2025-01-01"
    "medium" 1

/-- Base state: nobody logged in. -/
def baseSys : AdminSystem :=
  { current_user := none
    users := [("alice", adminUser), ("mia", managerUser), ("sam", staffUser)]
    departments := [("D1", deptD1)]
    employees := [("E1", empE1)]
    tasks := [("T1", taskT1)]
    logs := [] }

/-- Base state with the admin logged in. -/
def adminSys : AdminSystem :=
  { baseSys with current_user := some adminUser }

/-- Base state with the staff user logged in. -/
def staffSys : AdminSystem :=
  { baseSys with current_user := some staffUser }

/-- A task that has already been completed, so its completion timestamp is
set. -/
def taskT2 : Task :=
  { Task.init "T2" "Ship release" "Ship the release" "E1" "mia" "2025-02-01"
      "high" 1 with status := "completed", completed_at := some 2 }

/-- Staff-session state that also holds the completed task `T2`. -/
def staffSysT2 : AdminSystem :=
  { staffSys with tasks := [("T1", taskT1), ("T2", taskT2)] }

end Admin

namespace Admin

/-! ## Helper lemmas -/

theorem lookupA_setA_self {α : Type} (m : List (String × α)) (k : String)
    (v : α) : lookupA (setA m k v) k = some v := by
  induction m with
  | nil => simp [setA, lookupA]
  | cons p rest ih =>
    rcases p with ⟨k', v'⟩
    by_cases h : k' = k
    · simp [setA, lookupA, h]
    · simp [setA, lookupA, h, ih]

theorem hash_password_injective {p q : String}
    (h : hash_password p = hash_password q) : p = q := by
  have h2 : p.data = q.data := by
    simpa [hash_password] using congrArg String.data h
  cases p
  cases q
  simp at h2
  rw [h2]

theorem user_from_to_dict (u : User) : User.from_dict u.to_dict = u := by
  cases u with
  | mk username password_hash role full_name email last_login is_active =>
    cases last_login <;>
      simp [User.to_dict, User.from_dict, User.init, isoformat, fromisoformat]

theorem department_from_to_dict (d : Department) :
    Department.from_dict d.to_dict = d := by
  cases d
  simp [Department.to_dict, Department.from_dict, Department.init,
    isoformat, fromisoformat]

theorem employee_from_to_dict (e : Employee) :
    Employee.from_dict e.to_dict = e := by
  cases e
  simp [Employee.to_dict, Employee.from_dict, Employee.init]

theorem task_from_to_dict (t : Task) : Task.from_dict t.to_dict = t := by
  cases t with
  | mk task_id title description assigned_to assigned_by due_date priority
      status created_at completed_at comments =>
    cases completed_at <;>
      simp [Task.to_dict, Task.from_dict, Task.init, isoformat, fromisoformat]

theorem load_save_users (m : List (String × User))
    (hk : ∀ p ∈ m, p.2.username = p.1) : load_users (save_users m) = m := by
  induction m with
  | nil => rfl
  | cons p rest ih =>
    rcases p with ⟨k, v⟩
    have h1 : v.username = k := hk (k, v) (by simp)
    have h2 : ∀ q ∈ rest, q.2.username = q.1 := fun q hq => hk q (by simp [hq])
    have hd : load_users (save_users ((k, v) :: rest)) =
        (v.to_dict.username, User.from_dict v.to_dict) ::
          load_users (save_users rest) := rfl
    rw [hd, user_from_to_dict v, ih h2,
      show v.to_dict.username = v.username from rfl, h1]

theorem load_save_departments (m : List (String × Department))
    (hk : ∀ p ∈ m, p.2.dept_id = p.1) :
    load_departments (save_departments m) = m := by
  induction m with
  | nil => rfl
  | cons p rest ih =>
    rcases p with ⟨k, v⟩
    have h1 : v.dept_id = k := hk (k, v) (by simp)
    have h2 : ∀ q ∈ rest, q.2.dept_id = q.1 := fun q hq => hk q (by simp [hq])
    have hd : load_departments (save_departments ((k, v) :: rest)) =
        (v.to_dict.dept_id, Department.from_dict v.to_dict) ::
          load_departments (save_departments rest) := rfl
    rw [hd, department_from_to_dict v, ih h2,
      show v.to_dict.dept_id = v.dept_id from rfl, h1]

theorem load_save_employees (m : List (String × Employee))
    (hk : ∀ p ∈ m, p.2.emp_id = p.1) :
    load_employees (save_employees m) = m := by
  induction m with
  | nil => rfl
  | cons p rest ih =>
    rcases p with ⟨k, v⟩
    have h1 : v.emp_id = k := hk (k, v) (by simp)
    have h2 : ∀ q ∈ rest, q.2.emp_id = q.1 := fun q hq => hk q (by simp [hq])
    have hd : load_employees (save_employees ((k, v) :: rest)) =
        (v.to_dict.emp_id, Employee.from_dict v.to_dict) ::
          load_employees (save_employees rest) := rfl
    rw [hd, employee_from_to_dict v, ih h2,
      show v.to_dict.emp_id = v.emp_id from rfl, h1]

theorem load_save_tasks (m : List (String × Task))
    (hk : ∀ p ∈ m, p.2.task_id = p.1) : load_tasks (save_tasks m) = m := by
  induction m with
  | nil => rfl
  | cons p rest ih =>
    rcases p with ⟨k, v⟩
    have h1 : v.task_id = k := hk (k, v) (by simp)
    have h2 : ∀ q ∈ rest, q.2.task_id = q.1 := fun q hq => hk q (by simp [hq])
    have hd : load_tasks (save_tasks ((k, v) :: rest)) =
        (v.to_dict.task_id, Task.from_dict v.to_dict) ::
          load_tasks (save_tasks rest) := rfl
    rw [hd, task_from_to_dict v, ih h2,
      show v.to_dict.task_id = v.task_id from rfl, h1]

end Admin

namespace Admin

/-! ## Claim C1 -/

/-- Claim C1 counterexample: with the staff user logged in,
`list_employees` is not denied — it succeeds with outcome `ok` and returns
the full employee listing, refuting the claim that staff callers receive
`PermissionDenied` and no listing. -/
theorem C1_counterexample :
    staffSys.current_user = some staffUser ∧ staffUser.role = "staff" ∧
    (list_employees staffSys none).1 ≠ Outcome.permissionDenied ∧
    list_employees staffSys none = (Outcome.ok, [empE1]) :=
  ⟨rfl, rfl, by decide, by decide⟩

/-- Claim C1 (amended): `list_employees` performs no permission check at
all — a call by a staff caller, or with no logged-in user, succeeds with
outcome `ok` and returns the full employee listing. -/
theorem C1_list_employees_not_gated (sys : AdminSystem)
    (_h : sys.current_user = none ∨
      ∃ u, sys.current_user = some u ∧ u.role = "staff") :
    list_employees sys none =
      (Outcome.ok, sys.employees.map (fun p => p.2)) := rfl

/-- Claim C1 witness: the amended statement evaluated in the staff
session. -/
theorem C1_witness :
    (staffSys.current_user = none ∨
      ∃ u, staffSys.current_user = some u ∧ u.role = "staff") ∧
    list_employees staffSys none =
      (Outcome.ok, staffSys.employees.map (fun p => p.2)) :=
  ⟨Or.inr ⟨staffUser, rfl, rfl⟩,
   C1_list_employees_not_gated staffSys (Or.inr ⟨staffUser, rfl, rfl⟩)⟩

/-! ## Claim C2 -/

/-- Claim C2 counterexample: an authorized `add_employee` call with a
negative salary (-5) does not fail with `ValidationError` — it succeeds
and creates the employee with that negative salary. -/
theorem C2_counterexample :
    adminSys.current_user = some adminUser ∧ adminUser.role = "admin" ∧
    (-5 : Int) < 0 ∧
    (add_employee adminSys "E2" "Bob Crat" "Clerk" "D1" "2025-03-04" (-5)
      "bob@example.com" "555-0202" 7).1 = Outcome.ok ∧
    lookupA (add_employee adminSys "E2" "Bob Crat" "Clerk" "D1" "2025-03-04"
      (-5) "bob@example.com" "555-0202" 7).2.employees "E2" =
      some (Employee.init "E2" "Bob Crat" "Clerk" "D1" "2025-03-04" (-5)
        "bob@example.com" "555-0202") :=
  ⟨rfl, rfl, by decide, by decide, by decide⟩

/-- Claim C2 (amended): `add_employee` performs no salary-range
validation — an authorized call whose other inputs are valid and whose
salary is negative succeeds and creates the employee with that negative
salary. -/
theorem C2_negative_salary_accepted (sys : AdminSystem) (cu : User)
    (h : sys.current_user = some cu)
    (hrole : cu.role = "admin" ∨ cu.role = "manager")
    (emp_id full_name position department hire_date : String) (salary : Int)
    (email phone : String) (now : Nat)
    (hfresh : memA sys.employees emp_id = false)
    (hdept : memA sys.departments department = true)
    (hdate : valid_date hire_date = true) (_hneg : salary < 0) :
    (add_employee sys emp_id full_name position department hire_date salary
      email phone now).1 = Outcome.ok ∧
    lookupA (add_employee sys emp_id full_name position department hire_date
      salary email phone now).2.employees emp_id =
      some (Employee.init emp_id full_name position department hire_date
        salary email phone) := by
  rcases hrole with hr | hr <;>
    simp [add_employee, h, hr, hfresh, hdept, hdate, log_activity,
      lookupA_setA_self]

/-- Claim C2 witness: the amended statement evaluated on a concrete
authorized call with salary -5. -/
theorem C2_witness :
    memA adminSys.employees "E2" = false ∧
    memA adminSys.departments "D1" = true ∧
    valid_date "2025-03-04" = true ∧ (-5 : Int) < 0 ∧
    ((add_employee adminSys "E2" "Bob Crat" "Clerk" "D1" "2025-03-04" (-5)
      "bob@example.com" "555-0202" 7).1 = Outcome.ok ∧
    lookupA (add_employee adminSys "E2" "Bob Crat" "Clerk" "D1" "2025-03-04"
      (-5) "bob@example.com" "555-0202" 7).2.employees "E2" =
      some (Employee.init "E2" "Bob Crat" "Clerk" "D1" "2025-03-04" (-5)
        "bob@example.com" "555-0202")) :=
  ⟨by decide, by decide, by decide, by decide,
   C2_negative_salary_accepted adminSys adminUser rfl (Or.inl rfl) "E2"
     "Bob Crat" "Clerk" "D1" "2025-03-04" (-5) "bob@example.com" "555-0202"
     7 (by decide) (by decide) (by decide) (by decide)⟩

/-! ## Claim C3 -/

/-- Claim C3 counterexample: the status string "COMPLETED" is not a member
of the valid-status set, yet `update_task_status` does not reject it — the
source lowercases the input first, so the call succeeds and mutates the
task's status to "completed". -/
theorem C3_counterexample :
    ("COMPLETED" ∈ ["pending", "in_progress", "completed", "cancelled"]) =
      False ∧
    (lookupA staffSys.tasks "T1").map (fun t => t.status) = some "pending" ∧
    (update_task_status staffSys "T1" "COMPLETED" "" 5).1 = Outcome.ok ∧
    (lookupA (update_task_status staffSys "T1" "COMPLETED" ""
      5).2.tasks "T1").map (fun t => t.status) = some "completed" :=
  ⟨by decide, by decide, by decide, by decide⟩

/-- Claim C3 (amended): for every existing task and every status string
whose lowercasing is not one of pending, in_progress, completed,
cancelled, `update_task_status` returns `ValidationError` and leaves the
whole system state — in particular the task, status and every other field
— unchanged. -/
theorem C3_invalid_status_rejected_after_lowercasing (sys : AdminSystem)
    (cu : User) (task : Task) (task_id s comment : String) (now : Nat)
    (h : sys.current_user = some cu)
    (htask : lookupA sys.tasks task_id = some task)
    (hs : pyLower s ∉ ["pending", "in_progress", "completed", "cancelled"]) :
    update_task_status sys task_id s comment now =
      (Outcome.validationError, sys) := by
  simp [update_task_status, h, htask, hs]

/-- Claim C3 witness: the amended statement evaluated at the invalid
status string "bogus". -/
theorem C3_witness :
    pyLower "bogus" ∉ ["pending", "in_progress", "completed", "cancelled"] ∧
    update_task_status staffSys "T1" "bogus" "" 5 =
      (Outcome.validationError, staffSys) :=
  ⟨by decide,
   C3_invalid_status_rejected_after_lowercasing staffSys staffUser taskT1
     "T1" "bogus" "" 5 rfl (by decide) (by decide)⟩

/-! ## Claim C4 -/

/-- Claim C4: for every existing task, a `update_task_status` call to
"completed" by a logged-in caller succeeds, sets the task's status to
completed and sets its completion timestamp to the current time, so the
completion timestamp is non-null afterwards. -/
theorem C4_completed_sets_timestamp (sys : AdminSystem) (cu : User)
    (task : Task) (task_id comment : String) (now : Nat)
    (h : sys.current_user = some cu)
    (htask : lookupA sys.tasks task_id = some task) :
    (update_task_status sys task_id "completed" comment now).1 =
      Outcome.ok ∧
    ∃ t', lookupA (update_task_status sys task_id "completed" comment
        now).2.tasks task_id = some t' ∧
      t'.status = "completed" ∧ t'.completed_at = some now := by
  have hl : pyLower "completed" = "completed" := by decide
  by_cases hcmt : comment = "" <;>
    simp [update_task_status, h, htask, hl, hcmt, Task.update_status,
      Task.add_comment, log_activity, lookupA_setA_self]

/-- Claim C4 witness: completing task `T1` in the staff session at time 5
stamps `completed_at = 5`. -/
theorem C4_witness :
    staffSys.current_user = some staffUser ∧
    lookupA staffSys.tasks "T1" = some taskT1 ∧
    ((update_task_status staffSys "T1" "completed" "" 5).1 = Outcome.ok ∧
    ∃ t', lookupA (update_task_status staffSys "T1" "completed" ""
        5).2.tasks "T1" = some t' ∧
      t'.status = "completed" ∧ t'.completed_at = some 5) :=
  ⟨rfl, by decide,
   C4_completed_sets_timestamp staffSys staffUser taskT1 "T1" "" 5 rfl
     (by decide)⟩

/-! ## Claim C5 -/

/-- Claim C5: for every task whose completion timestamp is set, a
`update_task_status` call to a valid status other than completed (pending,
in_progress or cancelled) succeeds, changes the status to the requested
one, and leaves the completion timestamp exactly as it was — it is never
cleared. -/
theorem C5_completion_timestamp_never_cleared (sys : AdminSystem)
    (cu : User) (task : Task) (task_id s comment : String) (now c : Nat)
    (h : sys.current_user = some cu)
    (htask : lookupA sys.tasks task_id = some task)
    (hc : task.completed_at = some c)
    (hs : s ∈ ["pending", "in_progress", "cancelled"]) :
    (update_task_status sys task_id s comment now).1 = Outcome.ok ∧
    ∃ t', lookupA (update_task_status sys task_id s comment
        now).2.tasks task_id = some t' ∧
      t'.status = s ∧ t'.completed_at = some c := by
  simp only [List.mem_cons, List.not_mem_nil, or_false] at hs
  rcases hs with rfl | rfl | rfl <;>
    by_cases hcmt : comment = "" <;>
      simp [update_task_status, h, htask, hc, hcmt, Task.update_status,
        Task.add_comment, log_activity, lookupA_setA_self, pyLower]

/-- Claim C5 witness: moving the completed task `T2` (stamped at time 2)
back to pending at time 9 keeps `completed_at = 2`. -/
theorem C5_witness :
    staffSysT2.current_user = some staffUser ∧
    lookupA staffSysT2.tasks "T2" = some taskT2 ∧
    taskT2.completed_at = some 2 ∧
    "pending" ∈ ["pending", "in_progress", "cancelled"] ∧
    ((update_task_status staffSysT2 "T2" "pending" "" 9).1 = Outcome.ok ∧
    ∃ t', lookupA (update_task_status staffSysT2 "T2" "pending" ""
        9).2.tasks "T2" = some t' ∧
      t'.status = "pending" ∧ t'.completed_at = some 2) :=
  ⟨rfl, by decide, rfl, by decide,
   C5_completion_timestamp_never_cleared staffSysT2 staffUser taskT2 "T2"
     "pending" "" 9 2 rfl (by decide) rfl (by decide)⟩

/-! ## Claim C6 -/

/-- Claim C6: after an admin creates a user via `create_user` with
username `u` and password `p` (the account starts active), `login(u, p)`
succeeds and stores a fresh last-login timestamp on that user, while
`login(u, q)` for any `q ≠ p` fails with `AuthError`. -/
theorem C6_create_user_login_roundtrip (sys : AdminSystem) (cu : User)
    (username password role_input full_name email q : String)
    (now1 now2 : Nat)
    (h : sys.current_user = some cu) (hadmin : cu.role = "admin")
    (hfresh : memA sys.users username = false)
    (hrole : pyLower role_input ∈ ["admin", "manager", "staff"])
    (hq : q ≠ password) :
    (create_user sys username password password role_input full_name email
      now1).1 = Outcome.ok ∧
    (login (create_user sys username password password role_input full_name
      email now1).2 username password now2).1 = Outcome.ok ∧
    (∃ u', lookupA (login (create_user sys username password password
        role_input full_name email now1).2 username password now2).2.users
        username = some u' ∧ u'.last_login = some now2) ∧
    (login (create_user sys username password password role_input full_name
      email now1).2 username q now2).1 = Outcome.authError := by
  have hne : hash_password password ≠ hash_password q :=
    fun he => hq (hash_password_injective he.symm)
  simp [create_user, login, h, hadmin, hfresh, hrole, log_activity,
    lookupA_setA_self, User.verify_password, User.init, hne]

/-- Claim C6 witness: creating "newbie" with password "pw9" and then
logging in with "pw9" (success, last-login 4) and with "oops"
(`AuthError`). -/
theorem C6_witness :
    memA adminSys.users "newbie" = false ∧
    pyLower "Staff" ∈ ["admin", "manager", "staff"] ∧
    "oops" ≠ "pw9" ∧
    ((create_user adminSys "newbie" "pw9" "pw9" "Staff" "New Bee"
      "new@example.com" 3).1 = Outcome.ok ∧
    (login (create_user adminSys "newbie" "pw9" "pw9" "Staff" "New Bee"
      "new@example.com" 3).2 "newbie" "pw9" 4).1 = Outcome.ok ∧
    (∃ u', lookupA (login (create_user adminSys "newbie" "pw9" "pw9"
        "Staff" "New Bee" "new@example.com" 3).2 "newbie" "pw9"
        4).2.users "newbie" = some u' ∧ u'.last_login = some 4) ∧
    (login (create_user adminSys "newbie" "pw9" "pw9" "Staff" "New Bee"
      "new@example.com" 3).2 "newbie" "oops" 4).1 = Outcome.authError) :=
  ⟨by decide, by decide, by decide,
   C6_create_user_login_roundtrip adminSys adminUser "newbie" "pw9" "Staff"
     "New Bee" "new@example.com" "oops" 3 4 rfl rfl (by decide) (by decide)
     (by decide)⟩

/-! ## Claim C7 -/

/-- Claim C7: for each of the four entity kinds, deserialising the
serialised record restores the entity field-for-field
(`from_dict (to_dict e) = e`), and consequently saving a keyed collection
and loading it again (rebuilding the keys from the entities' natural
identifier fields) yields the collection back. -/
theorem C7_serialization_round_trip :
    (∀ u : User, User.from_dict u.to_dict = u) ∧
    (∀ d : Department, Department.from_dict d.to_dict = d) ∧
    (∀ e : Employee, Employee.from_dict e.to_dict = e) ∧
    (∀ t : Task, Task.from_dict t.to_dict = t) ∧
    (∀ m : List (String × User), (∀ p ∈ m, p.2.username = p.1) →
      load_users (save_users m) = m) ∧
    (∀ m : List (String × Department), (∀ p ∈ m, p.2.dept_id = p.1) →
      load_departments (save_departments m) = m) ∧
    (∀ m : List (String × Employee), (∀ p ∈ m, p.2.emp_id = p.1) →
      load_employees (save_employees m) = m) ∧
    (∀ m : List (String × Task), (∀ p ∈ m, p.2.task_id = p.1) →
      load_tasks (save_tasks m) = m) :=
  ⟨user_from_to_dict, department_from_to_dict, employee_from_to_dict,
   task_from_to_dict, load_save_users, load_save_departments,
   load_save_employees, load_save_tasks⟩

/-- Claim C7 witness: the round trip evaluated on the fixture entities and
on the users and tasks collections of the base state. -/
theorem C7_witness :
    User.from_dict adminUser.to_dict = adminUser ∧
    Department.from_dict deptD1.to_dict = deptD1 ∧
    Employee.from_dict empE1.to_dict = empE1 ∧
    Task.from_dict taskT1.to_dict = taskT1 ∧
    ((∀ p ∈ baseSys.users, p.2.username = p.1) ∧
      load_users (save_users baseSys.users) = baseSys.users) ∧
    ((∀ p ∈ baseSys.tasks, p.2.task_id = p.1) ∧
      load_tasks (save_tasks baseSys.tasks) = baseSys.tasks) :=
  ⟨C7_serialization_round_trip.1 adminUser,
   C7_serialization_round_trip.2.1 deptD1,
   C7_serialization_round_trip.2.2.1 empE1,
   C7_serialization_round_trip.2.2.2.1 taskT1,
   ⟨by decide,
    C7_serialization_round_trip.2.2.2.2.1 baseSys.users (by decide)⟩,
   ⟨by decide,
    C7_serialization_round_trip.2.2.2.2.2.2.2 baseSys.tasks (by decide)⟩⟩

/-! ## Claim C8 -/

/-- Claim C8: each creation operation, called by a caller that passes its
permission gate with an identifier already present in its collection,
fails with `DuplicateIdError` and leaves the whole system state — the
existing entity and all collections — unchanged. -/
theorem C8_duplicate_id_rejected (sys : AdminSystem) (cu : User)
    (h : sys.current_user = some cu)
    (username password confirm role_input full_name email : String)
    (dept_id dname manager descr : String) (budget : Int)
    (emp_id efull pos department hire_date : String) (salary : Int)
    (eemail phone : String)
    (task_id title tdescr assigned_to due_date priority_input : String)
    (now : Nat) :
    (cu.role = "admin" → memA sys.users username = true →
      create_user sys username password confirm role_input full_name email
        now = (Outcome.duplicateIdError, sys)) ∧
    (cu.role = "admin" → memA sys.departments dept_id = true →
      create_department sys dept_id dname manager descr budget now =
        (Outcome.duplicateIdError, sys)) ∧
    ((cu.role = "admin" ∨ cu.role = "manager") →
      memA sys.employees emp_id = true →
      add_employee sys emp_id efull pos department hire_date salary eemail
        phone now = (Outcome.duplicateIdError, sys)) ∧
    (memA sys.tasks task_id = true →
      create_task sys task_id title tdescr assigned_to due_date
        priority_input now = (Outcome.duplicateIdError, sys)) := by
  refine ⟨?_, ?_, ?_, ?_⟩
  · intro hr hdup; simp [create_user, h, hr, hdup]
  · intro hr hdup; simp [create_department, h, hr, hdup]
  · intro hr hdup
    rcases hr with hr | hr <;> simp [add_employee, h, hr, hdup]
  · intro hdup; simp [create_task, h, hdup]

/-- Claim C8 witness: re-creating the existing ids "alice", "D1", "E1" and
"T1" in the admin session all fail with `DuplicateIdError` and leave the
state untouched. -/
theorem C8_witness :
    memA adminSys.users "alice" = true ∧
    memA adminSys.departments "D1" = true ∧
    memA adminSys.employees "E1" = true ∧
    memA adminSys.tasks "T1" = true ∧
    create_user adminSys "alice" "x" "x" "staff" "A" "a@example.com" 7 =
      (Outcome.duplicateIdError, adminSys) ∧
    create_department adminSys "D1" "Dev2" "mia" "again" 5 7 =
      (Outcome.duplicateIdError, adminSys) ∧
    add_employee adminSys "E1" "Eve2" "Eng" "D1" "2024-02-02" 1
      "e@example.com" "555-1" 7 = (Outcome.duplicateIdError, adminSys) ∧
    create_task adminSys "T1" "t" "d" "E1" "2025-01-01" "low" 7 =
      (Outcome.duplicateIdError, adminSys) := by
  have H := C8_duplicate_id_rejected adminSys adminUser rfl "alice" "x" "x"
    "staff" "A" "a@example.com" "D1" "Dev2" "mia" "again" 5 "E1" "Eve2"
    "Eng" "D1" "2024-02-02" 1 "e@example.com" "555-1" "T1" "t" "d" "E1"
    "2025-01-01" "low" 7
  exact ⟨by decide, by decide, by decide, by decide,
    H.1 rfl (by decide), H.2.1 rfl (by decide),
    H.2.2.1 (Or.inl rfl) (by decide), H.2.2.2 (by decide)⟩

/-! ## Claim C9 -/

/-- Claim C9: an authorized `add_employee` call whose department id is not
present in the Department collection fails with `NotFoundError` and
changes nothing: the returned state is the input state, so the Employee
collection and every department's member list are unchanged. -/
theorem C9_add_employee_unknown_department (sys : AdminSystem) (cu : User)
    (h : sys.current_user = some cu)
    (hrole : cu.role = "admin" ∨ cu.role = "manager")
    (emp_id full_name position department hire_date : String) (salary : Int)
    (email phone : String) (now : Nat)
    (hfresh : memA sys.employees emp_id = false)
    (hdept : memA sys.departments department = false) :
    add_employee sys emp_id full_name position department hire_date salary
      email phone now = (Outcome.notFoundError, sys) := by
  rcases hrole with hr | hr <;> simp [add_employee, h, hr, hfresh, hdept]

/-- Claim C9 witness: adding employee "E9" to the absent department
"NOPE" in the admin session fails with `NotFoundError` and leaves the
state untouched. -/
theorem C9_witness :
    memA adminSys.employees "E9" = false ∧
    memA adminSys.departments "NOPE" = false ∧
    add_employee adminSys "E9" "Nina New" "Clerk" "NOPE" "2025-03-04" 100
      "nina@example.com" "555-9" 7 = (Outcome.notFoundError, adminSys) :=
  ⟨by decide, by decide,
   C9_add_employee_unknown_department adminSys adminUser rfl (Or.inl rfl)
     "E9" "Nina New" "Clerk" "NOPE" "2025-03-04" 100 "nina@example.com"
     "555-9" 7 (by decide) (by decide)⟩

/-! ## Claim C10 -/

/-- Claim C10: a `create_task` call by a logged-in caller whose priority
string is not low, medium or high even after lowercasing is not rejected —
the task is still created, with its priority silently set to "medium". -/
theorem C10_invalid_priority_defaults_to_medium (sys : AdminSystem)
    (cu : User)
    (task_id title description assigned_to due_date priority_input : String)
    (now : Nat)
    (h : sys.current_user = some cu)
    (hfresh : memA sys.tasks task_id = false)
    (hemp : memA sys.employees assigned_to = true)
    (hdate : valid_date due_date = true)
    (hprio : pyLower priority_input ∉ ["low", "medium", "high"]) :
    (create_task sys task_id title description assigned_to due_date
      priority_input now).1 = Outcome.ok ∧
    lookupA (create_task sys task_id title description assigned_to due_date
      priority_input now).2.tasks task_id =
      some (Task.init task_id title description assigned_to cu.username
        due_date "medium" now) := by
  simp [create_task, h, hfresh, hemp, hdate, hprio, log_activity,
    lookupA_setA_self]

/-- Claim C10 witness: creating task "T9" with priority "URGENT" in the
staff session succeeds and stores the task with priority "medium". -/
theorem C10_witness :
    memA staffSys.tasks "T9" = false ∧
    memA staffSys.employees "E1" = true ∧
    valid_date "2025-05-05" = true ∧
    pyLower "URGENT" ∉ ["low", "medium", "high"] ∧
    ((create_task staffSys "T9" "Urgent thing" "Do it now" "E1"
      "2025-05-05" "URGENT" 9).1 = Outcome.ok ∧
    lookupA (create_task staffSys "T9" "Urgent thing" "Do it now" "E1"
      "2025-05-05" "URGENT" 9).2.tasks "T9" =
      some (Task.init "T9" "Urgent thing" "Do it now" "E1" "sam"
        "2025-05-05" "medium" 9)) :=
  ⟨by decide, by decide, by decide, by decide,
   C10_invalid_priority_defaults_to_medium staffSys staffUser "T9"
     "Urgent thing" "Do it now" "E1" "2025-05-05" "URGENT" 9 rfl
     (by decide) (by decide) (by decide) (by decide)⟩

end Admin
